import Mathlib

/-!
Shallow embedding of `daq` (`src/main.rs`): a packet capture/replay CLI.

The program (`main`) parses options; if a device is named it opens a pcap
capture handle (fallible), then:
  * with `--output`: runs the capture loop, racing a non-blocking device
    read against a bounded(100) cancellation channel fed by the Ctrl-C
    handler via `try_send(()).ok()`;
  * with `--input`: runs the replay loop, reading records from the file
    and injecting each with `sendpacket`;
  * with neither: bails with "required input or output".
After a loop exits normally it reads and prints the three statistics
lines.  With no device it lists the available devices (name padded to
width 30, then the optional description) and exits.

Effects are embedded as explicit state: the capture loop is a step
function over a schedule of race-resolution events, the replay loop is
structural recursion over the record list, and `mainRun` strings the
branches of `main` together over oracle results for the fallible library
calls (`open`, `Device::list`).
-/

/-- One captured packet: timestamp and payload bytes (`packet.data`). -/
structure Packet where
  ts : Nat
  data : List Nat
deriving DecidableEq, Repr

/-- The subset of `std::io::ErrorKind` values the program distinguishes,
with `otherKind` standing for `io::ErrorKind::Other` and any further kind. -/
inductive IoKind
  | interrupted
  | wouldBlock
  | timedOut
  | notFound
  | permissionDenied
  | otherKind
deriving DecidableEq, Repr

/-- The `pcap::Error` variants the capture loop matches on, with
`otherError` standing for every remaining variant (the `Err(err)` arm). -/
inductive PcapErr
  | ioError (kind : IoKind)
  | pcapError (msg : String)
  | timeoutExpired
  | noMorePackets
  | otherError (msg : String)
deriving DecidableEq, Repr

/-- The error-kind translation performed by the closure passed to
`read_with_mut` in the capture loop (src/main.rs lines 61-66):
`IoError(Interrupted)`, `IoError(WouldBlock)`, `PcapError(_)` and
`TimeoutExpired` become `WouldBlock` (so `async_io` retries: the
Pending outcome); `IoError(kind)` keeps its kind; anything else becomes
`Other`.  A non-`WouldBlock` result makes the read future resolve with
an error, which `ev?` turns into a fatal exit. -/
def classify : PcapErr → IoKind
  | .ioError .interrupted => .wouldBlock
  | .ioError .wouldBlock => .wouldBlock
  | .pcapError _ => .wouldBlock
  | .timeoutExpired => .wouldBlock
  | .ioError k => k
  | _ => .otherKind

/-- Outcome of one call to `device.next()` inside the read closure. -/
inductive DevRead
  | ready (p : Packet)
  | readErr (e : PcapErr)
deriving DecidableEq, Repr

/-- One resolution of the `select!` race: either the device read future
makes progress with a `device.next()` outcome, or the cancellation
receiver `rx.next()` fires. -/
inductive RaceEvent
  | dev (r : DevRead)
  | cancel
deriving DecidableEq, Repr

/-- Observable state threaded through the capture loop: packets written
to the savefile (in order), number of `device.next()` calls, and the
number of messages queued in the cancellation channel. -/
structure CapState where
  writes : List Packet
  reads : Nat
  cancelQueue : Nat
deriving DecidableEq, Repr

/-- How the capture loop ended: `stopped` via the cancellation branch
(`break`), `fatal` via `ev?` on a non-retryable read error, `running`
when the event schedule is exhausted with the loop still going. -/
inductive CapResult
  | running
  | stopped
  | fatal (e : PcapErr)
deriving DecidableEq, Repr

/-- The capture loop (src/main.rs lines 54-80) over a schedule of race
events.  `Ok(packet)` writes to the savefile before returning; an error
classified `WouldBlock` keeps the loop polling; any other error resolves
`ev` with `Err`, and `ev?` exits the loop fatally.  `rx.next()` only
fires when a message is queued; it consumes one message and breaks. -/
def runCapture : List RaceEvent → CapState → CapState × CapResult
  | [], s => (s, .running)
  | .dev (.ready p) :: rest, s =>
      runCapture rest { s with writes := s.writes ++ [p], reads := s.reads + 1 }
  | .dev (.readErr e) :: rest, s =>
      if classify e = .wouldBlock then
        runCapture rest { s with reads := s.reads + 1 }
      else
        ({ s with reads := s.reads + 1 }, .fatal e)
  | .cancel :: rest, s =>
      if 0 < s.cancelQueue then
        ({ s with cancelQueue := s.cancelQueue - 1 }, .stopped)
      else
        runCapture rest s

/-- Errors surfaced by `main`: a pcap error propagated with `?`, or an
`anyhow::bail!` message. -/
inductive MainError
  | pcap (e : PcapErr)
  | msg (s : String)
deriving DecidableEq, Repr

/-- How a run of `main` (or of one pipeline) ends: success, an error
returned to the caller, or (capture only) schedule exhausted mid-loop. -/
inductive RunOutcome
  | ok
  | err (e : MainError)
  | diverged
deriving DecidableEq, Repr

/-- Observables of one capture-pipeline run: savefile writes, device
read count, how many times the statistics snapshot-and-print step ran,
and the outcome. -/
structure PipeResult where
  writes : List Packet
  reads : Nat
  statsReports : Nat
  outcome : RunOutcome
deriving DecidableEq, Repr

/-- The capture branch of `main`: run the loop from an empty savefile
with `q` messages initially queued on the cancellation channel.  The
statistics step (src/main.rs lines 97-100) runs only when the loop is
left by `break`: a fatal error propagates out of `main` through `ev?`
before reaching it. -/
def capturePipeline (sched : List RaceEvent) (q : Nat) : PipeResult :=
  match runCapture sched ⟨[], 0, q⟩ with
  | (s, .stopped) => ⟨s.writes, s.reads, 1, .ok⟩
  | (s, .fatal e) => ⟨s.writes, s.reads, 0, .err (.pcap e)⟩
  | (s, .running) => ⟨s.writes, s.reads, 0, .diverged⟩

/-- The replay loop (src/main.rs lines 84-93): `input.next()` is called
once per iteration; `Ok(packet)` injects with `sendpacket` (fatal on
failure, via `?`), `Err(NoMorePackets)` breaks.  Returns the number of
`input.next()` calls, the number of `sendpacket` calls, and the result. -/
def replayLoop (inject : Packet → Except PcapErr Unit) :
    List Packet → Nat → Nat → Nat × Nat × Except PcapErr Unit
  | [], reads, injs => (reads + 1, injs, .ok ())
  | p :: rest, reads, injs =>
      match inject p with
      | .ok _ => replayLoop inject rest (reads + 1) (injs + 1)
      | .error e => (reads + 1, injs + 1, .error e)

/-- Observables of one replay-pipeline run. -/
structure ReplayResult where
  readCalls : Nat
  injections : Nat
  statsReports : Nat
  outcome : RunOutcome
deriving DecidableEq, Repr

/-- The replay branch of `main`: the statistics step runs only when the
loop breaks at end-of-stream; `return Err(err.into())` on an injection
failure leaves `main` before it. -/
def replayPipeline (records : List Packet) (inject : Packet → Except PcapErr Unit) :
    ReplayResult :=
  match replayLoop inject records 0 0 with
  | (reads, injs, .ok _) => ⟨reads, injs, 1, .ok⟩
  | (reads, injs, .error e) => ⟨reads, injs, 0, .err (.pcap e)⟩

/-- Capacity of the cancellation channel: `async_channel::bounded(100)`
(src/main.rs line 47). -/
def channelCapacity : Nat := 100

/-- The Ctrl-C handler body `tx.try_send(()).ok()`: a non-blocking send
into the bounded channel, modelled on the queue length; it succeeds
while the queue is below capacity and is silently dropped at capacity. -/
def trySendCancel (q : Nat) : Nat :=
  if q < channelCapacity then q + 1 else q

/-- `k` consecutive delivery attempts (handler invocations) with no
consumption in between. -/
def sendIter : Nat → Nat → Nat
  | 0, q => q
  | k + 1, q => sendIter k (trySendCancel q)

/-- One enumerated device: `name` and optional `desc`. -/
structure Device where
  name : String
  desc : Option String
deriving DecidableEq, Repr

/-- Rust formatting `{:30}`: left-aligned, space-padded to width 30. -/
def padTo30 (s : String) : String :=
  s ++ String.mk (List.replicate (30 - s.length) ' ')

/-- One device-list line (src/main.rs lines 102-107): padded name, then
a space and the description when present. -/
def deviceLine (d : Device) : String :=
  padTo30 d.name ++ (match d.desc with
    | some desc => " " ++ desc
    | none => "")

/-- The command-line options (struct `Opts`).  `input` and `output` are
mutually exclusive at parse time but each may appear alone. -/
structure Opts where
  input : Option String
  output : Option String
  device : Option String
  bufferSize : Nat
  timeout : Nat
  promisc : Bool
  rfmon : Bool
  immediate : Bool
  verbose : Bool
deriving DecidableEq, Repr

/-- Observables of a whole run of `main`. -/
structure MainRun where
  enumLines : List String
  writes : List Packet
  devReads : Nat
  fileReads : Nat
  injections : Nat
  statsReports : Nat
  outcome : RunOutcome
deriving DecidableEq, Repr

/-- The branch structure of `main` (src/main.rs lines 33-111).
`openRes` stands for the result of the `from_device`/`open`/
`setnonblock`/`Async::new` chain (each `?`-propagated), `listRes` for
`Device::list()`.  With a device: open, then the output branch (capture
loop), else the input branch (replay loop), else
`bail!("required input or output")`; with no device: list devices.
Every early `?`/`bail!` exit skips the statistics step. -/
def mainRun (opts : Opts) (openRes : Except PcapErr Unit)
    (listRes : Except PcapErr (List Device))
    (sched : List RaceEvent) (q0 : Nat)
    (records : List Packet) (inject : Packet → Except PcapErr Unit) : MainRun :=
  match opts.device with
  | some _ =>
    match openRes with
    | .error e => ⟨[], [], 0, 0, 0, 0, .err (.pcap e)⟩
    | .ok _ =>
      match opts.output with
      | some _ =>
        let r := capturePipeline sched q0
        ⟨[], r.writes, r.reads, 0, 0, r.statsReports, r.outcome⟩
      | none =>
        match opts.input with
        | some _ =>
          let r := replayPipeline records inject
          ⟨[], [], 0, r.readCalls, r.injections, r.statsReports, r.outcome⟩
        | none => ⟨[], [], 0, 0, 0, 0, .err (.msg "required input or output")⟩
  | none =>
    match listRes with
    | .error e => ⟨[], [], 0, 0, 0, 0, .err (.pcap e)⟩
    | .ok devs => ⟨devs.map deviceLine, [], 0, 0, 0, 0, .ok⟩

/-! ## Helper lemmas -/

lemma runCapture_append (a b : List RaceEvent) (s : CapState) :
    runCapture (a ++ b) s =
      (match runCapture a s with
       | (s1, .running) => runCapture b s1
       | (s1, .stopped) => (s1, .stopped)
       | (s1, .fatal e) => (s1, .fatal e)) := by
  induction a generalizing s with
  | nil => simp [runCapture]
  | cons ev rest ih =>
    cases ev with
    | dev r =>
      cases r with
      | ready p => simpa [runCapture] using ih _
      | readErr e =>
        by_cases h : classify e = .wouldBlock <;>
          simp [runCapture, h, ih]
    | cancel =>
      by_cases h : 0 < s.cancelQueue <;>
        simp [runCapture, h, ih]

lemma sendIter_eq_min (k q : Nat) (hq : q ≤ channelCapacity) :
    sendIter k q = min (q + k) channelCapacity := by
  induction k generalizing q with
  | zero => simp [sendIter]; omega
  | succ n ih =>
    by_cases h : q < channelCapacity
    · rw [sendIter, trySendCancel, if_pos h, ih (q + 1) (by omega)]
      omega
    · have hq100 : q = channelCapacity := by omega
      rw [sendIter, trySendCancel, if_neg h, ih q hq]
      omega

lemma replayLoop_all_ok (inject : Packet → Except PcapErr Unit)
    (records : List Packet) (reads injs : Nat)
    (h : ∀ p ∈ records, inject p = .ok ()) :
    replayLoop inject records reads injs =
      (reads + records.length + 1, injs + records.length, .ok ()) := by
  induction records generalizing reads injs with
  | nil => simp [replayLoop]
  | cons p rest ih =>
    have hp : inject p = .ok () := h p (by simp)
    rw [replayLoop, hp]
    show replayLoop inject rest (reads + 1) (injs + 1) = _
    rw [ih (reads + 1) (injs + 1) (fun x hx => h x (by simp [hx]))]
    simp only [Prod.mk.injEq, List.length_cons]
    exact ⟨by omega, by omega, trivial⟩

/-! ## Claims -/

/-- C1 (counterexample): a run of the capture pipeline in which the very
first read is a fatal error surfaces the error to the caller with the
statistics step never executed, refuting the claim that the final
statistics snapshot is still taken and reported before the error is
surfaced. -/
theorem c1_counterexample :
    (capturePipeline [.dev (.readErr (.otherError "device gone"))] 0).outcome =
        .err (.pcap (.otherError "device gone")) ∧
    (capturePipeline [.dev (.readErr (.otherError "device gone"))] 0).statsReports = 0 := by
  constructor <;> rfl

/-- C1 (amended): the statistics snapshot-and-report step runs exactly
once when a pipeline terminates without a fatal error (capture cancelled,
or replay reaching end-of-stream), and does not run at all when a fatal
error is surfaced to the caller (the error propagates out of `main`
through `?`/`return Err` before the statistics lines). -/
theorem c1_stats_iff_no_fatal (sched : List RaceEvent) (q : Nat)
    (records : List Packet) (inject : Packet → Except PcapErr Unit) :
    ((capturePipeline sched q).statsReports =
      if (capturePipeline sched q).outcome = .ok then 1 else 0) ∧
    ((replayPipeline records inject).statsReports =
      if (replayPipeline records inject).outcome = .ok then 1 else 0) := by
  constructor
  · unfold capturePipeline
    rcases runCapture sched ⟨[], 0, q⟩ with ⟨s, r⟩
    cases r <;> simp
  · unfold replayPipeline
    rcases replayLoop inject records 0 0 with ⟨reads, injs, r⟩
    cases r <;> simp

/-- C2 (counterexample): the cancellation channel is created with
`async_channel::bounded(100)`, not capacity 1, and a second delivery
attempt before consumption is not dropped: it grows the queue to 2. -/
theorem c2_counterexample :
    channelCapacity ≠ 1 ∧ trySendCancel (trySendCancel 0) = 2 := by
  constructor <;> decide

/-- C2 (amended): the cancellation signal is carried by an asynchronous
channel of bounded capacity 100: before the pipeline consumes any
message, the first 100 non-blocking sends all succeed and every send
after the 100th is silently dropped, so `k` delivery attempts leave
`min k 100` messages queued. -/
theorem c2_bounded_coalescing (k : Nat) :
    sendIter k 0 = min k channelCapacity := by
  simpa using sendIter_eq_min k 0 (by simp [channelCapacity])

/-- C3: the read-error classification maps exactly interrupted-syscall,
would-block, timeout-expired and generic pcap driver errors to the
retryable would-block (Pending) outcome, and the capture loop keeps
polling on such an error while any other error ends the loop fatally
with that error. -/
theorem c3_error_classification (e : PcapErr) (rest : List RaceEvent) (s : CapState) :
    (classify e = .wouldBlock ↔
      e = .ioError .interrupted ∨ e = .ioError .wouldBlock ∨
      (∃ m, e = .pcapError m) ∨ e = .timeoutExpired) ∧
    runCapture (.dev (.readErr e) :: rest) s =
      (if classify e = .wouldBlock
       then runCapture rest { s with reads := s.reads + 1 }
       else ({ s with reads := s.reads + 1 }, .fatal e)) := by
  refine ⟨?_, rfl⟩
  cases e with
  | ioError k => cases k <;> simp [classify]
  | pcapError m => simp [classify]
  | timeoutExpired => simp [classify]
  | noMorePackets => simp [classify]
  | otherError m => simp [classify]

lemma runCapture_append_running (a b : List RaceEvent) (s s1 : CapState)
    (h : runCapture a s = (s1, .running)) :
    runCapture (a ++ b) s = runCapture b s1 := by
  rw [runCapture_append, h]

/-- C4: for every schedule of `n` Pending device outcomes followed by one
Ready packet, the capture loop performs exactly one savefile write (the
Ready packet, appended once) and `n + 1` device reads, and stays in the
loop: zero writes per Pending, one write per Ready, no duplication, no
loss. -/
theorem c4_pending_then_ready (n : Nat) (p : Packet) (e : PcapErr)
    (he : classify e = .wouldBlock) (s : CapState) :
    runCapture (List.replicate n (.dev (.readErr e)) ++ [.dev (.ready p)]) s =
      ({ s with writes := s.writes ++ [p], reads := s.reads + n + 1 }, .running) := by
  induction n generalizing s with
  | zero => simp [runCapture]
  | succ k ih =>
    rw [List.replicate_succ, List.cons_append]
    simp only [runCapture, he, if_pos]
    rw [ih]
    simp only [Prod.mk.injEq, CapState.mk.injEq, and_true, true_and]
    omega

/-- C4 (witness): two timeout-expired reads then a Ready packet give one
write of that packet, three reads, loop still running. -/
theorem c4_witness :
    runCapture (List.replicate 2 (.dev (.readErr .timeoutExpired)) ++
        [.dev (.ready ⟨5, [1, 2]⟩)]) ⟨[], 0, 0⟩ =
      (⟨[⟨5, [1, 2]⟩], 3, 0⟩, .running) :=
  c4_pending_then_ready 2 ⟨5, [1, 2]⟩ .timeoutExpired (by decide) ⟨[], 0, 0⟩

/-- C5: if the capture loop reaches a point (after schedule `pre`, with
no fatal error so far) where a cancellation message is queued and the
cancellation branch fires, the run ends successfully with no further
device reads (the read count is frozen at its value before the
cancellation) and the statistics step runs exactly once afterwards. -/
theorem c5_cancellation (pre post : List RaceEvent) (q : Nat) (s1 : CapState)
    (h : runCapture pre ⟨[], 0, q⟩ = (s1, .running))
    (hq : 0 < s1.cancelQueue) :
    capturePipeline (pre ++ .cancel :: post) q = ⟨s1.writes, s1.reads, 1, .ok⟩ := by
  unfold capturePipeline
  rw [runCapture_append_running pre (.cancel :: post) ⟨[], 0, q⟩ s1 h]
  simp only [runCapture]
  rw [if_pos hq]

/-- C5 (witness): one Pending read, then cancellation with one queued
message, then a would-be Ready packet that is never read: one read, no
writes, statistics reported once, successful outcome. -/
theorem c5_witness :
    capturePipeline ([RaceEvent.dev (.readErr .timeoutExpired)] ++
        RaceEvent.cancel :: [RaceEvent.dev (.ready ⟨0, [1]⟩)]) 1 =
      ⟨[], 1, 1, .ok⟩ :=
  c5_cancellation [RaceEvent.dev (.readErr .timeoutExpired)]
    [RaceEvent.dev (.ready ⟨0, [1]⟩)] 1 ⟨[], 1, 1⟩ (by decide) (by decide)

/-- C6 (counterexample): a replay over an empty source (N = 0 records)
performs 1 = N + 1 calls to `input.next()` — the call that observes
`NoMorePackets` — refuting the claim that no (N+1)-th read is attempted;
the rest of the claim (N injections, successful termination) holds. -/
theorem c6_counterexample :
    (replayPipeline [] (fun _ => .ok ())).readCalls = 1 ∧
    (replayPipeline [] (fun _ => .ok ())).injections = 0 ∧
    (replayPipeline [] (fun _ => .ok ())).outcome = .ok :=
  ⟨rfl, rfl, rfl⟩

/-- C6 (amended): for every replay over a source of N records with no
injection failure, exactly N injection calls occur, the run terminates
successfully at end-of-stream (end-of-stream is not an error, and the
statistics step runs once), and exactly N + 1 read calls are made — the
final one returning the end-of-stream marker, after which no further
read is attempted. -/
theorem c6_replay_exact (records : List Packet) (inject : Packet → Except PcapErr Unit)
    (h : ∀ p ∈ records, inject p = .ok ()) :
    replayPipeline records inject = ⟨records.length + 1, records.length, 1, .ok⟩ := by
  unfold replayPipeline
  rw [replayLoop_all_ok inject records 0 0 h]
  simp

/-- C6 (witness): a two-record replay with always-succeeding injection
makes 3 read calls, 2 injections, reports statistics once, and ends
successfully. -/
theorem c6_witness :
    replayPipeline [⟨0, [1]⟩, ⟨1, [2, 3]⟩] (fun _ => .ok ()) = ⟨3, 2, 1, .ok⟩ :=
  c6_replay_exact [⟨0, [1]⟩, ⟨1, [2, 3]⟩] (fun _ => .ok ()) (fun _ _ => rfl)

lemma runCapture_queue_irrel (sched : List RaceEvent) (w : List Packet) (r q1 q2 : Nat)
    (h1 : 0 < q1) (h2 : 0 < q2) :
    (runCapture sched ⟨w, r, q1⟩).1.writes = (runCapture sched ⟨w, r, q2⟩).1.writes ∧
    (runCapture sched ⟨w, r, q1⟩).1.reads = (runCapture sched ⟨w, r, q2⟩).1.reads ∧
    (runCapture sched ⟨w, r, q1⟩).2 = (runCapture sched ⟨w, r, q2⟩).2 := by
  induction sched generalizing w r with
  | nil => exact ⟨rfl, rfl, rfl⟩
  | cons ev rest ih =>
    cases ev with
    | dev d =>
      cases d with
      | ready p => simpa [runCapture] using ih (w ++ [p]) (r + 1)
      | readErr e =>
        by_cases hc : classify e = .wouldBlock
        · simpa [runCapture, hc] using ih w (r + 1)
        · simp [runCapture, hc]
    | cancel =>
      simp [runCapture, h1, h2]

/-- C7: delivering the cancellation event twice before the pipeline
consumes it (two messages queued) yields the same observable run as
delivering it once — the same savefile writes, the same device reads,
the same statistics reporting, and the same termination outcome. -/
theorem c7_cancel_idempotent (sched : List RaceEvent) :
    (capturePipeline sched 2).writes = (capturePipeline sched 1).writes ∧
    (capturePipeline sched 2).reads = (capturePipeline sched 1).reads ∧
    (capturePipeline sched 2).statsReports = (capturePipeline sched 1).statsReports ∧
    (capturePipeline sched 2).outcome = (capturePipeline sched 1).outcome := by
  obtain ⟨hw, hr, hres⟩ := runCapture_queue_irrel sched [] 0 2 1 (by decide) (by decide)
  unfold capturePipeline
  rcases hq2 : runCapture sched ⟨[], 0, 2⟩ with ⟨s2, r2⟩
  rcases hq1 : runCapture sched ⟨[], 0, 1⟩ with ⟨s1, r1⟩
  rw [hq2, hq1] at hw hr hres
  cases r2 <;> cases r1 <;> simp_all

/-- C8: when opening the device fails, the run performs no pipeline loop
iteration (no device reads, no file reads, no injections, no writes),
reports no statistics, and surfaces the open error to the caller
immediately — there is no retry and no enumeration output. -/
theorem c8_open_failure (opts : Opts) (d : String) (e : PcapErr)
    (listRes : Except PcapErr (List Device)) (sched : List RaceEvent) (q0 : Nat)
    (records : List Packet) (inject : Packet → Except PcapErr Unit)
    (hdev : opts.device = some d) :
    mainRun opts (.error e) listRes sched q0 records inject =
      ⟨[], [], 0, 0, 0, 0, .err (.pcap e)⟩ := by
  unfold mainRun
  rw [hdev]

/-- C8 (witness): permission denied on open for a capture invocation on
eth0 gives an immediate failing run with nothing executed. -/
theorem c8_witness :
    mainRun ⟨none, some "out.pcap", some "eth0", 1000000, 0, false, false, false, false⟩
        (.error (.ioError .permissionDenied)) (.ok []) [] 0 [] (fun _ => .ok ()) =
      ⟨[], [], 0, 0, 0, 0, .err (.pcap (.ioError .permissionDenied))⟩ :=
  c8_open_failure _ "eth0" _ _ _ _ _ _ rfl

/-- C9: when no device is specified, the run prints one line per
enumerated device (name padded to width 30, then the optional
description) and succeeds, whatever input or output path the options
carry: those flags are ignored, no pipeline runs, and no statistics are
reported. -/
theorem c9_enumeration (opts : Opts) (devs : List Device)
    (openRes : Except PcapErr Unit) (sched : List RaceEvent) (q0 : Nat)
    (records : List Packet) (inject : Packet → Except PcapErr Unit)
    (hdev : opts.device = none) :
    mainRun opts openRes (.ok devs) sched q0 records inject =
      ⟨devs.map deviceLine, [], 0, 0, 0, 0, .ok⟩ := by
  unfold mainRun
  rw [hdev]

/-- C9 (witness): with an `--input` path but no device, the run still
just lists the one device and succeeds, ignoring the input flag. -/
theorem c9_witness :
    mainRun ⟨some "in.pcap", none, none, 1000000, 0, false, false, false, false⟩
        (.ok ()) (.ok [⟨"eth0", some "Ethernet"⟩]) [] 0 [] (fun _ => .ok ()) =
      ⟨[deviceLine ⟨"eth0", some "Ethernet"⟩], [], 0, 0, 0, 0, .ok⟩ :=
  c9_enumeration _ [⟨"eth0", some "Ethernet"⟩] _ _ _ _ _ rfl

/-- C10: when a device is specified and opens successfully but neither
an input nor an output path is given, the run fails with the message
"required input or output", with no pipeline loop iteration, no writes,
and no statistics report. -/
theorem c10_required_io (opts : Opts) (d : String)
    (listRes : Except PcapErr (List Device)) (sched : List RaceEvent) (q0 : Nat)
    (records : List Packet) (inject : Packet → Except PcapErr Unit)
    (hdev : opts.device = some d) (hout : opts.output = none)
    (hin : opts.input = none) :
    mainRun opts (.ok ()) listRes sched q0 records inject =
      ⟨[], [], 0, 0, 0, 0, .err (.msg "required input or output")⟩ := by
  unfold mainRun
  rw [hdev, hout, hin]

/-- C10 (witness): a device-only invocation on eth0 fails with the
"required input or output" message and nothing else happens. -/
theorem c10_witness :
    mainRun ⟨none, none, some "eth0", 1000000, 0, false, false, false, false⟩
        (.ok ()) (.ok []) [] 0 [] (fun _ => .ok ()) =
      ⟨[], [], 0, 0, 0, 0, .err (.msg "required input or output")⟩ :=
  c10_required_io _ "eth0" _ _ _ _ _ rfl rfl rfl
